import Mathlib

/-!
Verification of the WireScope diagnostic HTTP test server
(`src/config/test-server.py`).

The whole program is one request router: `TestHandler.do_GET` and
`TestHandler.do_HEAD` map a request target string (path plus optional
query string) to an HTTP response.  We embed the handler functions and
the library routines they rely on (`urllib.parse.urlparse`,
`urllib.parse.parse_qs` with default arguments, CPython `int(str)`)
as executable Lean functions and prove the routing and formatting
properties claimed of them.

Conventions of the embedding:
* A response is its status code, the header pairs emitted by
  `send_header` (in emission order), and its body bytes.  The
  `Server`/`Date` headers added uniformly by `send_response` for every
  response are orthogonal to all routing claims and are not modelled.
* Strings written by the handler are ASCII, so `str.encode()` (UTF-8)
  is one byte per character, equal to its code point.
* `time.sleep` raises `ValueError` on a negative duration and the wait
  itself has no effect on the response content, so the sleep is
  modelled as the negativity check alone.  (CPython can additionally
  raise `OverflowError` when an astronomically large `ms` exceeds the
  float or timestamp range; the spec declares the parameter unbounded
  and that platform limit is not modelled.)
-/

namespace WireScope

/-- Splits a character list at the first occurrence of `c`: the part
before `c` and the part after it, with the separator removed.  When `c`
does not occur the second component is empty, like Python
`s.split(c, 1)` followed by taking both halves. -/
def splitAtFirst (c : Char) : List Char → List Char × List Char
  | [] => ([], [])
  | x :: xs =>
    if x = c then ([], xs)
    else
      let p := splitAtFirst c xs
      (x :: p.1, p.2)

/-- Whether character `c` occurs in the list, like Python `c in s`. -/
def containsChar (c : Char) (l : List Char) : Bool := l.any (fun x => x = c)

/-- The `_splitparams` step of `urllib.parse.urlparse`: path parameters
start at the first `;` after the last `/` (at the first `;` of the whole
string when there is no `/`) and are dropped from the `path` attribute. -/
def dropParams (l : List Char) : List Char :=
  if containsChar '/' l then
    let r := splitAtFirst '/' l.reverse
    r.2.reverse ++ '/' :: (splitAtFirst ';' r.1.reverse).1
  else (splitAtFirst ';' l).1

/-- The `path`/`query` extraction of `urllib.parse.urlparse` applied to
`self.path`, the origin-form request target: the fragment (everything
after the first `#`) is removed, then the query (everything after the
first `?`) is split off, then path parameters are dropped.  Targets
begin with `/`, so the scheme/netloc branches of `urlsplit` never fire
and are not modelled. -/
def urlPathQuery (target : String) : String × String :=
  let noFrag := (splitAtFirst '#' target.data).1
  let pq := splitAtFirst '?' noFrag
  (String.mk (dropParams pq.1), String.mk pq.2)

/-- The `path` attribute of the parsed request target. -/
def urlPath (target : String) : String := (urlPathQuery target).1

/-- The `query` attribute of the parsed request target. -/
def urlQuery (target : String) : String := (urlPathQuery target).2

/-- Is `c` an ASCII hexadecimal digit? -/
def isHexDigit (c : Char) : Bool :=
  c.isDigit || (97 ≤ c.toNat && c.toNat ≤ 102) || (65 ≤ c.toNat && c.toNat ≤ 70)

/-- Value of an ASCII hexadecimal digit. -/
def hexVal (c : Char) : Nat :=
  if c.isDigit then c.toNat - 48
  else if 97 ≤ c.toNat then c.toNat - 87
  else c.toNat - 55

/-- `urllib.parse.unquote_plus`: `+` becomes a space and `%xy` with two
hex digits decodes to the byte `0x xy`; a `%` not followed by two hex
digits is kept literally.  Decoded bytes below `0x80` agree with
CPython; multi-byte UTF-8 reassembly of consecutive high escapes is not
modelled (no claim involves non-ASCII escapes). -/
def unquotePlus : List Char → List Char
  | '+' :: rest => ' ' :: unquotePlus rest
  | '%' :: a :: b :: rest =>
    if isHexDigit a && isHexDigit b then
      Char.ofNat (16 * hexVal a + hexVal b) :: unquotePlus rest
    else '%' :: unquotePlus (a :: b :: rest)
  | c :: rest => c :: unquotePlus rest
  | [] => []

/-- Splits on every occurrence of `c`, like Python `s.split(c)`:
the empty string yields `[""]`. -/
def splitOnChar (c : Char) : List Char → List (List Char)
  | [] => [[]]
  | x :: xs =>
    let r := splitOnChar c xs
    if x = c then [] :: r
    else
      match r with
      | [] => [[x]]
      | h :: t => (x :: h) :: t

/-- `urllib.parse.parse_qsl` with default arguments
(`keep_blank_values=False`, `strict_parsing=False`, separator `&`):
the query splits on `&`; an empty field is skipped; a field without `=`
is skipped; a field whose value part is empty is skipped; name and
value of every kept field are percent-plus-decoded.  Order of the kept
fields is preserved. -/
def parse_qsl (qs : String) : List (String × String) :=
  (splitOnChar '&' qs.data).filterMap (fun nv =>
    if nv = [] then none
    else if ¬ containsChar '=' nv then none
    else
      let p := splitAtFirst '=' nv
      if p.2 = [] then none
      else some (String.mk (unquotePlus p.1), String.mk (unquotePlus p.2)))

/-- One insertion step of the dict-of-lists built by
`urllib.parse.parse_qs`: the first occurrence of a key creates its
entry (at the end, preserving first-appearance order), later
occurrences append to the entry's value list. -/
def dictAppend (d : List (String × List String)) (k v : String) :
    List (String × List String) :=
  match d with
  | [] => [(k, [v])]
  | (k', vs) :: rest =>
    if k' = k then (k', vs ++ [v]) :: rest
    else (k', vs) :: dictAppend rest k v

/-- `urllib.parse.parse_qs` with default arguments: the dict mapping
each key of the query string to the list of its values in occurrence
order, represented as an association list. -/
def parse_qs (qs : String) : List (String × List String) :=
  (parse_qsl qs).foldl (fun d p => dictAppend d p.1 p.2) []

/-- `dict.get(k, dflt)` on the parse_qs result. -/
def dictGet (d : List (String × List String)) (k : String)
    (dflt : List String) : List String :=
  match d.find? (fun p => p.1 == k) with
  | some p => p.2
  | none => dflt

/-- The whitespace characters stripped by CPython `int(str)` that are
ASCII (CPython also strips the other Unicode space characters, which no
claim involves). -/
def isPySpace (c : Char) : Bool :=
  c = ' ' || c = '\t' || c = '\n' || c = '\r' || c.toNat = 11 || c.toNat = 12

/-- Strips leading and trailing whitespace. -/
def pyStrip (l : List Char) : List Char :=
  ((l.dropWhile isPySpace).reverse.dropWhile isPySpace).reverse

/-- Value of an ASCII decimal digit. -/
def digitVal (c : Char) : Nat := c.toNat - 48

/-- Continuation of `pyDigits` after at least one digit has been read:
a single `_` is allowed only when a digit follows. -/
def pyDigitsGo (acc : Nat) : List Char → Option Nat
  | [] => some acc
  | '_' :: c :: rest =>
    if c.isDigit then pyDigitsGo (10 * acc + digitVal c) rest else none
  | ['_'] => none
  | c :: rest =>
    if c.isDigit then pyDigitsGo (10 * acc + digitVal c) rest else none

/-- The digit-string grammar of CPython `int(str)` after sign removal:
a nonempty run of base-10 digits with single underscores allowed only
between digits.  Only ASCII digits are modelled (CPython also accepts
the other Unicode decimal digits, which no claim involves). -/
def pyDigits : List Char → Option Nat
  | [] => none
  | c :: rest => if c.isDigit then pyDigitsGo (digitVal c) rest else none

/-- CPython `int(str)`: strips whitespace, reads an optional sign, then
a digit run; `none` models the `ValueError` raised on any other
input. -/
def pyIntParse (s : String) : Option Int :=
  match pyStrip s.data with
  | '+' :: rest => (pyDigits rest).map Int.ofNat
  | '-' :: rest => (pyDigits rest).map (fun n => -(n : Int))
  | l => (pyDigits l).map Int.ofNat

/-- `str.encode()`: the UTF-8 bytes of a string.  Every string this
server emits is ASCII, where UTF-8 is one byte per character equal to
its code point. -/
def strBytes (s : String) : List Nat := s.data.map Char.toNat

/-- An HTTP response as the handler emits it: status code, the header
pairs passed to `send_header` in order, and the body bytes written to
`wfile`. -/
structure Response where
  status : Nat
  headers : List (String × String)
  body : List Nat
deriving DecidableEq

/-- The uncaught Python exceptions that can escape `do_GET`: `int()`
raises `ValueError` on a non-numeric string, and `time.sleep` raises
`ValueError` when its argument is negative. -/
inductive PyError
  | intParseValueError (raw : String)
  | sleepNegativeValueError
deriving DecidableEq

/-- The static HTML page served for `/` and `/index.html`. -/
def indexHtml : String :=
  "<!DOCTYPE html>\n<html>\n<head>\n    <title>Network QoE Test Target</title>\n</head>\n<body>\n    <h1>Network QoE Test Target Server</h1>\n    <p>This server provides test endpoints for network quality measurements.</p>\n    <ul>\n        <li><a href=\"/health\">Health Check</a> - Fast response endpoint</li>\n        <li><a href=\"/slow?ms=2000\">Slow Endpoint</a> - Configurable delay endpoint</li>\n        <li><a href=\"/fixed/1mb.bin\">1MB Test File</a> - For throughput testing</li>\n    </ul>\n</body>\n</html>"

/-- The chunked zero-fill loop of the `/fixed/1mb.bin` handler: while
`total_sent < 1048576` it writes `min(8192, 1048576 - total_sent)` zero
bytes and advances `total_sent` by that amount; the result is the
concatenation of everything written. -/
def zeroChunks (totalSent : Nat) : List Nat :=
  if h : totalSent < 1048576 then
    List.replicate (min 8192 (1048576 - totalSent)) 0 ++
      zeroChunks (totalSent + min 8192 (1048576 - totalSent))
  else []
termination_by 1048576 - totalSent
decreasing_by omega

/-- `TestHandler.do_HEAD`: parses the path of the request target and
answers `/health` and `/fixed/1mb.bin` with the same status and headers
as `do_GET` but no body; every other path gets the default 404 with no
body. -/
def do_HEAD (target : String) : Response :=
  let path := urlPath target
  if path = "/health" then
    { status := 200
      headers := [("Content-Type", "text/plain"), ("Cache-Control", "no-cache")]
      body := [] }
  else if path = "/fixed/1mb.bin" then
    { status := 200
      headers := [("Content-Type", "application/octet-stream"),
                  ("Content-Length", "1048576"),
                  ("Cache-Control", "no-cache, no-store, must-revalidate"),
                  ("Pragma", "no-cache"),
                  ("Expires", "0")]
      body := [] }
  else
    { status := 404
      headers := [("Content-Type", "text/plain")]
      body := [] }

/-- `TestHandler.do_GET`: parses path and query of the request target
and dispatches on the path.  `/slow` reads `query.get('ms', ['1000'])[0]`
(the list produced by `parse_qs` for a present key is nonempty, so the
`headD` fallback is unreachable), parses it with `int` — an unparseable
value raises `ValueError` — sleeps `ms/1000.0` seconds — negative
raises `ValueError` inside `time.sleep` — and reports the parsed value
in the body. -/
def do_GET (target : String) : Except PyError Response :=
  let path := urlPath target
  let query := parse_qs (urlQuery target)
  if path = "/health" then
    .ok { status := 200
          headers := [("Content-Type", "text/plain"), ("Cache-Control", "no-cache")]
          body := strBytes "OK" }
  else if path = "/slow" then
    let raw := (dictGet query "ms" ["1000"]).headD "1000"
    match pyIntParse raw with
    | none => .error (.intParseValueError raw)
    | some delay_ms =>
      if delay_ms < 0 then .error .sleepNegativeValueError
      else
        .ok { status := 200
              headers := [("Content-Type", "text/plain"), ("Cache-Control", "no-cache")]
              body := strBytes ("Delayed response (" ++ toString delay_ms ++ "ms)") }
  else if path = "/fixed/1mb.bin" then
    .ok { status := 200
          headers := [("Content-Type", "application/octet-stream"),
                      ("Content-Length", "1048576"),
                      ("Cache-Control", "no-cache, no-store, must-revalidate"),
                      ("Pragma", "no-cache"),
                      ("Expires", "0")]
          body := zeroChunks 0 }
  else if path = "/" ∨ path = "/index.html" then
    .ok { status := 200
          headers := [("Content-Type", "text/html")]
          body := strBytes indexHtml }
  else
    .ok { status := 404
          headers := [("Content-Type", "text/plain")]
          body := strBytes "Not Found" }

example : urlPath "/slow?ms=5" = "/slow" := by decide
example : urlQuery "/slow?ms=5&ms=7" = "ms=5&ms=7" := by decide
example : parse_qsl "ms=5&ms=7" = [("ms", "5"), ("ms", "7")] := by decide
example : parse_qsl "ms=" = [] := by decide
example : pyIntParse "-1" = some (-1) := by decide
example : pyIntParse " 10 " = some 10 := by decide
example : pyIntParse "1_0" = some 10 := by decide
example : pyIntParse "1_" = none := by decide
example : pyIntParse "abc" = none := by decide
/-! ### The chunk loop emits exactly the fixed payload -/

/-- Each pass of the zero-fill loop extends the output by one chunk of
zeros, so from any loop entry state the remaining output is exactly the
remaining bytes, all zero.  The auxiliary bound `m` drives the
induction over the loop's variant `1048576 - t`. -/
theorem zeroChunks_eq_replicate :
    ∀ (m t : Nat), 1048576 - t ≤ m →
      zeroChunks t = List.replicate (1048576 - t) (0 : Nat) := by
  intro m
  induction m with
  | zero =>
    intro t ht
    rw [zeroChunks, dif_neg (by omega)]
    have h0 : 1048576 - t = 0 := by omega
    rw [h0, List.replicate_zero]
  | succ m ih =>
    intro t ht
    by_cases h1 : t < 1048576
    · rw [zeroChunks, dif_pos h1,
        ih (t + min 8192 (1048576 - t)) (by omega),
        ← List.replicate_add]
      congr 1
      omega
    · rw [zeroChunks, dif_neg h1]
      have h0 : 1048576 - t = 0 := by omega
      rw [h0, List.replicate_zero]

example : do_GET "/slow?ms=-1" = .error .sleepNegativeValueError := rfl
example : do_GET "/health" =
    .ok { status := 200
          headers := [("Content-Type", "text/plain"), ("Cache-Control", "no-cache")]
          body := [79, 75] } := rfl

/-! ### Claim theorems -/

/-- Claim C2: every GET request to `/fixed/1mb.bin` responds 200 with a
`Content-Length: 1048576` header and a body of exactly 1,048,576 bytes,
each `0x00`; `do_GET` is a pure function of the target, so the response
is identical on every call. -/
theorem fixed_1mb_exact :
    do_GET "/fixed/1mb.bin" =
      .ok { status := 200
            headers := [("Content-Type", "application/octet-stream"),
                        ("Content-Length", "1048576"),
                        ("Cache-Control", "no-cache, no-store, must-revalidate"),
                        ("Pragma", "no-cache"),
                        ("Expires", "0")]
            body := List.replicate 1048576 0 }
    ∧ (List.replicate 1048576 (0 : Nat)).length = 1048576 := by
  have h : zeroChunks 0 = List.replicate 1048576 (0 : Nat) := by
    have h1 := zeroChunks_eq_replicate 1048576 0 (by omega)
    rw [Nat.sub_zero] at h1
    exact h1
  constructor
  · have h2 : do_GET "/fixed/1mb.bin" =
        .ok { status := 200
              headers := [("Content-Type", "application/octet-stream"),
                          ("Content-Length", "1048576"),
                          ("Cache-Control", "no-cache, no-store, must-revalidate"),
                          ("Pragma", "no-cache"),
                          ("Expires", "0")]
              body := zeroChunks 0 } := rfl
    rw [h2, h]
  · rw [List.length_replicate]

/-- Claim C3: every GET request whose parsed path is `/health` — whatever
its query string — responds 200 with headers `Content-Type: text/plain`
and `Cache-Control: no-cache` and a body of exactly the two bytes of
`OK`; `do_GET` reads no other state, so no other request can affect
this. -/
theorem health_get_exact (target : String) (h : urlPath target = "/health") :
    do_GET target =
      .ok { status := 200
            headers := [("Content-Type", "text/plain"), ("Cache-Control", "no-cache")]
            body := strBytes "OK" }
    ∧ (strBytes "OK").length = 2 := by
  constructor
  · simp only [do_GET, h]
    rfl
  · rfl

/-- Witness for C3 at a concrete target carrying a query string. -/
theorem health_get_exact_witness :
    do_GET "/health?foo=bar" =
      .ok { status := 200
            headers := [("Content-Type", "text/plain"), ("Cache-Control", "no-cache")]
            body := strBytes "OK" }
    ∧ (strBytes "OK").length = 2 :=
  health_get_exact "/health?foo=bar" (by decide)

/-- Claim C4: on `/health` and on `/fixed/1mb.bin`, GET and HEAD produce
the same status code and the same header list, and the HEAD response
carries no body bytes. -/
theorem get_head_agree :
    (do_GET "/health").toOption.map Response.status = some (do_HEAD "/health").status
    ∧ (do_GET "/health").toOption.map Response.headers = some (do_HEAD "/health").headers
    ∧ (do_HEAD "/health").body = []
    ∧ (do_GET "/fixed/1mb.bin").toOption.map Response.status =
        some (do_HEAD "/fixed/1mb.bin").status
    ∧ (do_GET "/fixed/1mb.bin").toOption.map Response.headers =
        some (do_HEAD "/fixed/1mb.bin").headers
    ∧ (do_HEAD "/fixed/1mb.bin").body = [] :=
  ⟨rfl, rfl, rfl, rfl, rfl, rfl⟩

/-- Claim C5: HEAD on `/` and on `/index.html` matches no explicit route
of `do_HEAD` and falls through to the default 404 with
`Content-Type: text/plain` and no body, while GET on the same paths
returns status 200. -/
theorem head_root_asymmetry :
    do_HEAD "/" = { status := 404, headers := [("Content-Type", "text/plain")], body := [] }
    ∧ do_HEAD "/index.html" =
        { status := 404, headers := [("Content-Type", "text/plain")], body := [] }
    ∧ (do_GET "/").toOption.map Response.status = some 200
    ∧ (do_GET "/index.html").toOption.map Response.status = some 200 :=
  ⟨rfl, rfl, rfl, rfl⟩

/-! ### parse_qs keeps the first occurrence of a key at the head of its
value list -/

/-- Appending a value under a different key leaves lookups for `k`
unchanged. -/
theorem dictAppend_find?_ne (k k' v : String) (h : k' ≠ k)
    (d : List (String × List String)) :
    (dictAppend d k' v).find? (fun p => p.1 == k) = d.find? (fun p => p.1 == k) := by
  induction d with
  | nil =>
    rw [show dictAppend [] k' v = [(k', [v])] from rfl,
      List.find?_cons_of_neg _ (by simp [h]), List.find?_nil]
  | cons hd rest ih =>
    obtain ⟨k'', vs⟩ := hd
    show (if k'' = k' then (k'', vs ++ [v]) :: rest
          else (k'', vs) :: dictAppend rest k' v).find? _ = _
    by_cases hk : k'' = k'
    · subst hk
      rw [if_pos rfl, List.find?_cons_of_neg _ (by simp [h]),
        List.find?_cons_of_neg _ (by simp [h])]
    · rw [if_neg hk]
      by_cases hk2 : k'' = k
      · rw [List.find?_cons_of_pos _ (by simp [hk2]),
          List.find?_cons_of_pos _ (by simp [hk2])]
      · rw [List.find?_cons_of_neg _ (by simp [hk2]),
          List.find?_cons_of_neg _ (by simp [hk2])]
        exact ih

/-- Appending a value under an absent key creates its entry with the
one-element value list. -/
theorem dictAppend_find?_none (k v : String) (d : List (String × List String))
    (h : d.find? (fun p => p.1 == k) = none) :
    (dictAppend d k v).find? (fun p => p.1 == k) = some (k, [v]) := by
  induction d with
  | nil =>
    rw [show dictAppend [] k v = [(k, [v])] from rfl,
      List.find?_cons_of_pos _ (by simp)]
  | cons hd rest ih =>
    obtain ⟨k'', vs⟩ := hd
    have hpred : ¬ k'' = k := by
      intro he
      rw [List.find?_cons_of_pos _ (by simp [he])] at h
      exact Option.noConfusion h
    have hrest : rest.find? (fun p => p.1 == k) = none := by
      rwa [List.find?_cons_of_neg _ (by simp [hpred])] at h
    show (if k'' = k then (k'', vs ++ [v]) :: rest
          else (k'', vs) :: dictAppend rest k v).find? _ = _
    rw [if_neg hpred, List.find?_cons_of_neg _ (by simp [hpred]), ih hrest]

/-- Appending a value under a present key extends its entry's value
list at the back, leaving the head untouched. -/
theorem dictAppend_find?_some (k v : String) (d : List (String × List String))
    (e : String) (vs0 : List String)
    (h : d.find? (fun p => p.1 == k) = some (e, vs0)) :
    (dictAppend d k v).find? (fun p => p.1 == k) = some (e, vs0 ++ [v]) := by
  induction d with
  | nil =>
    rw [List.find?_nil] at h
    exact Option.noConfusion h
  | cons hd rest ih =>
    obtain ⟨k'', vs⟩ := hd
    by_cases hk : k'' = k
    · rw [List.find?_cons_of_pos _ (by simp [hk])] at h
      have hinj := Option.some.inj h
      have he : k'' = e := congrArg Prod.fst hinj
      have hv : vs = vs0 := congrArg Prod.snd hinj
      subst he
      subst hv
      show (if k'' = k then (k'', vs ++ [v]) :: rest
            else (k'', vs) :: dictAppend rest k v).find? _ = _
      rw [if_pos hk, List.find?_cons_of_pos _ (by simp [hk])]
    · rw [List.find?_cons_of_neg _ (by simp [hk])] at h
      show (if k'' = k then (k'', vs ++ [v]) :: rest
            else (k'', vs) :: dictAppend rest k v).find? _ = _
      rw [if_neg hk, List.find?_cons_of_neg _ (by simp [hk])]
      exact ih h

/-- Folding further query pairs into the dict only ever extends an
existing entry's value list at the back: its key and the prefix already
present — in particular its head — survive. -/
theorem foldl_dictAppend_find?_some (k : String) :
    ∀ (ps : List (String × String)) (d : List (String × List String))
      (e : String) (vs0 : List String),
      d.find? (fun p => p.1 == k) = some (e, vs0) →
      ∃ rest, (ps.foldl (fun d p => dictAppend d p.1 p.2) d).find? (fun p => p.1 == k)
        = some (e, vs0 ++ rest) := by
  intro ps
  induction ps with
  | nil =>
    intro d e vs0 h
    refine ⟨[], ?_⟩
    rw [List.foldl_nil, h, List.append_nil]
  | cons p ps ih =>
    intro d e vs0 h
    by_cases hk : p.1 = k
    · have h2 := dictAppend_find?_some k p.2 d e vs0 h
      obtain ⟨rest, hr⟩ := ih (dictAppend d p.1 p.2) e (vs0 ++ [p.2]) (by rw [hk]; exact h2)
      refine ⟨p.2 :: rest, ?_⟩
      rw [List.foldl_cons, hr, List.append_assoc]
      rfl
    · have h2 : (dictAppend d p.1 p.2).find? (fun q => q.1 == k) = some (e, vs0) := by
        rw [dictAppend_find?_ne k p.1 p.2 hk d]
        exact h
      obtain ⟨rest, hr⟩ := ih (dictAppend d p.1 p.2) e vs0 h2
      refine ⟨rest, ?_⟩
      rw [List.foldl_cons]
      exact hr

/-- When the dict has no entry for `k` yet, building it from a pair list
whose first `k`-pair carries value `pr.2` produces an entry for `k`
whose value list has `pr.2` at its head: `parse_qs` puts the query
string's first occurrence first. -/
theorem foldl_dictAppend_find?_first (k : String) :
    ∀ (ps : List (String × String)) (d : List (String × List String)),
      d.find? (fun p => p.1 == k) = none →
      ∀ pr, ps.find? (fun p => p.1 == k) = some pr →
      ∃ rest, (ps.foldl (fun d p => dictAppend d p.1 p.2) d).find? (fun q => q.1 == k)
        = some (pr.1, pr.2 :: rest) := by
  intro ps
  induction ps with
  | nil =>
    intro d hd pr hpr
    rw [List.find?_nil] at hpr
    exact Option.noConfusion hpr
  | cons p ps ih =>
    intro d hd pr hpr
    by_cases hk : p.1 = k
    · rw [List.find?_cons_of_pos _ (by simp [hk])] at hpr
      have hp : p = pr := Option.some.inj hpr
      subst hp
      have h2 := dictAppend_find?_none k p.2 d hd
      have h3 : (dictAppend d p.1 p.2).find? (fun q => q.1 == k) = some (k, [p.2]) := by
        rw [hk]
        exact h2
      obtain ⟨rest, hr⟩ := foldl_dictAppend_find?_some k ps (dictAppend d p.1 p.2) k [p.2] h3
      refine ⟨rest, ?_⟩
      rw [List.foldl_cons, hr, hk]
      rfl
    · rw [List.find?_cons_of_neg _ (by simp [hk])] at hpr
      have h2 : (dictAppend d p.1 p.2).find? (fun q => q.1 == k) = none := by
        rw [dictAppend_find?_ne k p.1 p.2 hk d]
        exact hd
      obtain ⟨rest, hr⟩ := ih (dictAppend d p.1 p.2) h2 pr hpr
      refine ⟨rest, ?_⟩
      rw [List.foldl_cons]
      exact hr

/-- Claim C6: a GET to `/slow` whose parsed query has no `ms` key uses
the default raw value `"1000"`, so it responds exactly like
`GET /slow?ms=1000`: status 200, the same headers, and body
`Delayed response (1000ms)`. -/
theorem slow_default_ms (target : String)
    (h1 : urlPath target = "/slow")
    (h2 : (parse_qs (urlQuery target)).find? (fun p => p.1 == "ms") = none) :
    do_GET target = do_GET "/slow?ms=1000"
    ∧ do_GET target =
        .ok { status := 200
              headers := [("Content-Type", "text/plain"), ("Cache-Control", "no-cache")]
              body := strBytes "Delayed response (1000ms)" } := by
  have key : dictGet (parse_qs (urlQuery target)) "ms" ["1000"] = ["1000"] := by
    unfold dictGet
    rw [h2]
  have main : do_GET target =
      .ok { status := 200
            headers := [("Content-Type", "text/plain"), ("Cache-Control", "no-cache")]
            body := strBytes "Delayed response (1000ms)" } := by
    simp only [do_GET, h1, key]
    rfl
  exact ⟨main.trans rfl, main⟩

/-- Witness for C6 at the bare target `/slow`. -/
theorem slow_default_ms_witness :
    do_GET "/slow" = do_GET "/slow?ms=1000"
    ∧ do_GET "/slow" =
        .ok { status := 200
              headers := [("Content-Type", "text/plain"), ("Cache-Control", "no-cache")]
              body := strBytes "Delayed response (1000ms)" } :=
  slow_default_ms "/slow" (by decide) (by decide)

/-- Claim C7: a GET to `/slow` whose `ms` raw value does not parse as a
base-10 integer makes `int` raise an uncaught `ValueError`: the handler
produces no 200 response, the error escapes. -/
theorem slow_unparseable_ms (target raw : String)
    (h1 : urlPath target = "/slow")
    (h2 : (dictGet (parse_qs (urlQuery target)) "ms" ["1000"]).headD "1000" = raw)
    (h3 : pyIntParse raw = none) :
    do_GET target = .error (.intParseValueError raw) := by
  simp only [do_GET, h1, h2, h3]
  rfl

/-- Witness for C7 at the concrete target `/slow?ms=abc`. -/
theorem slow_unparseable_ms_witness :
    do_GET "/slow?ms=abc" = .error (.intParseValueError "abc") :=
  slow_unparseable_ms "/slow?ms=abc" "abc" (by decide) (by decide) (by decide)

/-- Claim C9: when the query string of a GET to `/slow` carries the `ms`
key more than once, the value of the first occurrence is the one parsed
and used for the delay and for the response body; the later ones are
ignored. -/
theorem slow_first_ms (target v : String) (m : Int)
    (h1 : urlPath target = "/slow")
    (h2 : 2 ≤ ((parse_qsl (urlQuery target)).filter (fun p => p.1 == "ms")).length)
    (h3 : (parse_qsl (urlQuery target)).find? (fun p => p.1 == "ms") = some ("ms", v))
    (h4 : pyIntParse v = some m)
    (h5 : 0 ≤ m) :
    do_GET target =
      .ok { status := 200
            headers := [("Content-Type", "text/plain"), ("Cache-Control", "no-cache")]
            body := strBytes ("Delayed response (" ++ toString m ++ "ms)") } := by
  obtain ⟨rest, hr⟩ := foldl_dictAppend_find?_first "ms" (parse_qsl (urlQuery target)) []
    (by rw [List.find?_nil]) ("ms", v) h3
  have key : (dictGet (parse_qs (urlQuery target)) "ms" ["1000"]).headD "1000" = v := by
    unfold dictGet parse_qs
    rw [hr]
    rfl
  simp only [do_GET, h1, key, h4]
  rw [if_pos trivial, if_neg (show ¬ m < 0 by omega)]
  rfl

/-- Witness for C9: with `ms=5&ms=7` the first value 5 shapes the
response. -/
theorem slow_first_ms_witness :
    do_GET "/slow?ms=5&ms=7" =
      .ok { status := 200
            headers := [("Content-Type", "text/plain"), ("Cache-Control", "no-cache")]
            body := strBytes ("Delayed response (" ++ toString (5 : Int) ++ "ms)") } :=
  slow_first_ms "/slow?ms=5&ms=7" "5" 5 (by decide) (by decide) (by decide)
    (by decide) (by decide)

/-- Counterexample to claim C1 as stated: on `GET /slow?ms=-1` the
handler does not complete with a 200 response — `time.sleep(-0.001)`
raises `ValueError`, which propagates out of the handler. -/
theorem slow_negative_ms_raises :
    do_GET "/slow?ms=-1" = .error .sleepNegativeValueError := rfl

/-- Claim C1 (amended): on `GET /slow`, a parsed `ms` of zero collapses
to no wait and responds 200 with body `Delayed response (0ms)` without
raising, but a negative parsed `ms` makes `time.sleep` raise
`ValueError`, which propagates: no 200 response is produced. -/
theorem slow_nonpositive_ms (target : String) (m : Int)
    (h1 : urlPath target = "/slow")
    (h2 : pyIntParse ((dictGet (parse_qs (urlQuery target)) "ms" ["1000"]).headD "1000")
      = some m)
    (h3 : m ≤ 0) :
    (m = 0 → do_GET target =
      .ok { status := 200
            headers := [("Content-Type", "text/plain"), ("Cache-Control", "no-cache")]
            body := strBytes "Delayed response (0ms)" })
    ∧ (m < 0 → do_GET target = .error .sleepNegativeValueError) := by
  constructor
  · intro h0
    subst h0
    simp only [do_GET, h1, h2]
    rfl
  · intro hneg
    simp only [do_GET, h1, h2]
    rw [if_pos trivial, if_pos hneg]
    rfl

/-- Witness for the amended C1 at `ms=0` and `ms=-5`. -/
theorem slow_nonpositive_ms_witness :
    do_GET "/slow?ms=0" =
      .ok { status := 200
            headers := [("Content-Type", "text/plain"), ("Cache-Control", "no-cache")]
            body := strBytes "Delayed response (0ms)" }
    ∧ do_GET "/slow?ms=-5" = .error .sleepNegativeValueError :=
  ⟨(slow_nonpositive_ms "/slow?ms=0" 0 (by decide) (by decide) (by decide)).1 rfl,
   (slow_nonpositive_ms "/slow?ms=-5" (-5) (by decide) (by decide) (by decide)).2 (by decide)⟩

/-- Claim C8: any GET whose parsed path matches no route responds 404
with `Content-Type: text/plain` and body `Not Found`; any HEAD whose
parsed path is neither `/health` nor `/fixed/1mb.bin` responds 404 with
`Content-Type: text/plain` and an empty body. -/
theorem default_not_found (target : String) :
    (urlPath target ∉ (["/health", "/slow", "/fixed/1mb.bin", "/", "/index.html"] : List String) →
      do_GET target =
        .ok { status := 404
              headers := [("Content-Type", "text/plain")]
              body := strBytes "Not Found" })
    ∧ (urlPath target ∉ (["/health", "/fixed/1mb.bin"] : List String) →
      do_HEAD target =
        { status := 404, headers := [("Content-Type", "text/plain")], body := [] }) := by
  constructor
  · intro h
    simp only [List.mem_cons, List.mem_singleton, not_or] at h
    obtain ⟨h1, h2, h3, h4, h5, -⟩ := h
    simp only [do_GET]
    rw [if_neg h1, if_neg h2, if_neg h3, if_neg (not_or.mpr ⟨h4, h5⟩)]
  · intro h
    simp only [List.mem_cons, List.mem_singleton, not_or] at h
    obtain ⟨h1, h2, -⟩ := h
    simp only [do_HEAD]
    rw [if_neg h1, if_neg h2]

/-- Witness for C8 at `/does-not-exist` (GET) and `/slow` (HEAD). -/
theorem default_not_found_witness :
    do_GET "/does-not-exist" =
      .ok { status := 404
            headers := [("Content-Type", "text/plain")]
            body := strBytes "Not Found" }
    ∧ do_HEAD "/slow" =
        { status := 404, headers := [("Content-Type", "text/plain")], body := [] } :=
  ⟨(default_not_found "/does-not-exist").1 (by decide),
   (default_not_found "/slow").2 (by decide)⟩

/-- Claim C10: a present-but-blank `ms` value (`/slow?ms=`) is dropped
by query parsing with `keep_blank_values=False`, so the request behaves
exactly as if `ms` were absent: no parse error, default 1000 used. -/
theorem slow_blank_ms :
    parse_qsl "ms=" = []
    ∧ (parse_qs (urlQuery "/slow?ms=")).find? (fun p => p.1 == "ms") = none
    ∧ do_GET "/slow?ms=" = do_GET "/slow"
    ∧ do_GET "/slow?ms=" =
        .ok { status := 200
              headers := [("Content-Type", "text/plain"), ("Cache-Control", "no-cache")]
              body := strBytes "Delayed response (1000ms)" } :=
  ⟨rfl, rfl, rfl, rfl⟩

end WireScope
